import Mathlib

/-!
Shallow embedding of the slot supervisor in `src/pi/portal.py`
(Universal-ESP32-Tester).  Pure fragments of the Python code are
translated into executable Lean definitions; OS side effects
(process signals, sysfs writes, sleeps, thread spawns) are recorded
in explicit effect structures or passed in as boolean oracles.
Timestamps (Python `time.time()` floats) are modelled as integers,
which suffices for the window/gap comparisons the code performs.
-/

namespace Portal

/-- Module-level constant `FLAP_WINDOW_S = 30` (portal.py line 33). -/
def FLAP_WINDOW_S : Int := 30

/-- Module-level constant `FLAP_THRESHOLD = 6` (portal.py line 34). -/
def FLAP_THRESHOLD : Nat := 6

/-- Module-level constant `FLAP_COOLDOWN_S = 10` (portal.py line 35). -/
def FLAP_COOLDOWN_S : Int := 10

/-- Module-level constant `FLAP_MAX_RETRIES = 2` (portal.py line 36). -/
def FLAP_MAX_RETRIES : Nat := 2

/-- The slot state strings `STATE_*` (portal.py lines 44-50), as an enum. -/
inductive SlotState where
  | absent
  | idle
  | resetting
  | monitoring
  | flapping
  | recovering
  | download_mode
deriving DecidableEq, Repr

/-- The Python string value of a state constant (e.g. `STATE_IDLE = "idle"`). -/
def SlotState.str : SlotState → String
  | .absent => "absent"
  | .idle => "idle"
  | .resetting => "resetting"
  | .monitoring => "monitoring"
  | .flapping => "flapping"
  | .recovering => "recovering"
  | .download_mode => "download_mode"

/-- A slot record (the per-slot dict built in `load_config` /
`_make_dynamic_slot`, portal.py lines 248-283 and 464-487).  The Python
keys `_event_times`, `_recovering`, `_recover_retries` are modelled
without the leading underscore; `_lock` (a mutex) carries no data. -/
structure Slot where
  label : Option String
  slot_key : String
  tcp_port : Option Nat
  gpio_boot : Option Nat
  gpio_en : Option Nat
  present : Bool
  running : Bool
  pid : Option Nat
  devnode : Option String
  seq : Nat
  last_action : Option String
  last_event_ts : Option String
  url : Option String
  last_error : Option String
  flapping : Bool
  state : SlotState
  event_times : List Int
  recovering : Bool
  recover_retries : Nat
deriving DecidableEq, Repr

/-- Python truthiness of the optional `pid` field (`if slot["pid"]`). -/
def pidTruthy : Option Nat → Bool
  | none => false
  | some p => p ≠ 0

/-- Python `label = slot["label"] or slot_key[-20:]` — last 20 characters
of the key when no label is configured. -/
def strLast20 (s : String) : String :=
  String.mk (s.toList.reverse.take 20 |>.reverse)

def slotLabel (s : Slot) : String :=
  match s.label with
  | some l => l
  | none => strLast20 s.slot_key

end Portal

namespace PyStr

/-- Python `int()` treats these characters as strippable whitespace. -/
def isPySpace (c : Char) : Bool :=
  c = ' ' ∨ c = '\t' ∨ c = '\n' ∨ c = '\r' ∨ c = '\x0b' ∨ c = '\x0c'

/-- Strip Python-style whitespace from both ends of a character list. -/
def pyStrip (cs : List Char) : List Char :=
  ((cs.dropWhile isPySpace).reverse.dropWhile isPySpace).reverse

/-- Value of an ASCII decimal digit. -/
def pyDigitVal (c : Char) : Option Nat :=
  if c.isDigit then some (c.toNat - '0'.toNat) else none

/-- Digits of a Python int literal after the first digit: single
underscores are permitted between digits, nowhere else.  The flag
records whether the previous character was an underscore. -/
def pyDigitsAux : Bool → Nat → List Char → Option Nat
  | false, acc, [] => some acc
  | true, _, [] => none
  | prevU, acc, c :: rest =>
    if c = '_' then
      if prevU then none else pyDigitsAux true acc rest
    else
      match pyDigitVal c with
      | some d => pyDigitsAux false (acc * 10 + d) rest
      | none => none

/-- An unsigned run of digits: nonempty, starts with a digit. -/
def pyNat : List Char → Option Nat
  | [] => none
  | c :: rest =>
    match pyDigitVal c with
    | some d => pyDigitsAux false d rest
    | none => none

/-- Python `int(s)` on ASCII input: optional whitespace, optional sign,
digits with single interior underscores.  (Python additionally accepts
non-ASCII unicode digits, which never occur in slot keys.) -/
def pyInt (s : String) : Option Int :=
  match pyStrip s.toList with
  | '+' :: rest => (pyNat rest).map Int.ofNat
  | '-' :: rest => (pyNat rest).map (fun n => -(n : Int))
  | rest => (pyNat rest).map Int.ofNat

end PyStr

namespace Portal

/-- `occursAt pat cs i`: the pattern occurs in `cs` starting at index `i`
(Python `s.find`/`rfind` hit at `i`). -/
def occursAt (pat cs : List Char) (i : Nat) : Prop :=
  pat <+: cs.drop i

instance (pat cs : List Char) (i : Nat) : Decidable (occursAt pat cs i) :=
  inferInstanceAs (Decidable (pat <+: cs.drop i))

/-- Index of the last occurrence of `pat` in `cs` — Python `cs.rfind(pat)`,
with `none` for Python's `-1`. -/
def lastIndexOf (pat : List Char) : List Char → Option Nat
  | [] => if pat = [] then some 0 else none
  | c :: rest =>
    match lastIndexOf pat rest with
    | some i => some (i + 1)
    | none => if pat.isPrefixOf (c :: rest) then some 0 else none

/-- The literal `"usb-"` searched for by `_slot_key_to_usb_device`. -/
def patUsb : List Char := ['u', 's', 'b', '-']

/-- Python `s.split(sep)` for a single-character separator: `"".split(":")`
is `[""]`, and every separator occurrence opens a new field. -/
def splitChar (sep : Char) : List Char → List (List Char)
  | [] => [[]]
  | c :: rest =>
    let r := splitChar sep rest
    if c = sep then [] :: r
    else
      match r with
      | h :: t => (c :: h) :: t
      | [] => [[c]]

/-- `_slot_key_to_usb_device` (portal.py lines 140-163): parse
`'platform-3f980000.usb-usb-0:1.1.2:1.0'` to `'1-1.1.2'`.  Finds the last
`"usb-"`, splits the suffix on `":"`, parses the bus field with Python
`int`, and returns `f"{bus+1}-{port_path}"`. -/
def _slot_key_to_usb_device (slot_key : String) : Option String :=
  let cs := slot_key.toList
  match lastIndexOf patUsb cs with
  | none => none
  | some idx =>
    let tail := cs.drop (idx + 4)
    let parts := splitChar ':' tail
    if parts.length < 2 then none
    else
      let bus := String.mk (parts.getD 0 [])
      let port_path := String.mk (parts.getD 1 [])
      match PyStr.pyInt bus with
      | none => none
      | some bus_num => some (toString (bus_num + 1) ++ "-" ++ port_path)

/-- `stop_proxy` (portal.py lines 450-461).  The SIGTERM/SIGKILL of the
child process touches no slot field; the function unconditionally clears
`running`, `pid`, `url`, `last_error` and returns `True`. -/
def stop_proxy (slot : Slot) : Slot × Bool :=
  ({slot with running := false, pid := none, url := none, last_error := none}, true)

/-- The pruning applied to `_event_times`: keep `t` with
`now - t < FLAP_WINDOW_S` (portal.py lines 1185 and 562). -/
def pruneEvents (now : Int) (ts : List Int) : List Int :=
  ts.filter (fun t => now - t < FLAP_WINDOW_S)

/-- The common clearance assignments (portal.py lines 1190-1192,
1197-1199, 566-568): `flapping = False`, `last_error = None`,
`state = IDLE if present else ABSENT`. -/
def clearedSlot (slot : Slot) : Slot :=
  {slot with flapping := false, last_error := none,
             state := if slot.present then SlotState.idle else SlotState.absent}

/-- `_event_times[-1] - _event_times[-2]` (portal.py line 1195); only
used when the list has at least two elements. -/
def newestGap (ts : List Int) : Int :=
  match ts.reverse with
  | a :: b :: _ => a - b
  | _ => 0

/-- The in-handler quiet-period clearance (portal.py lines 1188-1200),
applied after the new event was appended and the window pruned. -/
def flap_clear (slot : Slot) : Slot :=
  if slot.flapping ∧ ¬slot.recovering then
    if slot.event_times.length < 2 then clearedSlot slot
    else if FLAP_COOLDOWN_S ≤ newestGap slot.event_times then clearedSlot slot
    else slot
  else slot

/-- Effects of `_start_flap_recovery` that leave the slot record:
whether the trigger block invoked it, whether `_usb_unbind` was called
and what it returned, and which recovery worker thread was spawned. -/
structure RecEffects where
  invoked : Bool := false
  unbind_attempted : Bool := false
  unbind_result : Option Bool := none
  spawned_gpio : Bool := false
  spawned_nogpio : Bool := false
deriving DecidableEq, Repr

/-- `_start_flap_recovery` (portal.py lines 734-772).  `unbindOk` is the
boolean returned by `_usb_unbind`: the Python caller does not inspect it.
The only abort path is an unparseable `slot_key`. -/
def start_flap_recovery (unbindOk : Bool) (slot : Slot) : Slot × RecEffects :=
  if slot.recovering then (slot, {})
  else
    let s1 : Slot := {slot with recovering := true, state := SlotState.recovering}
    let s2 := if s1.running ∧ pidTruthy s1.pid then (stop_proxy s1).1 else s1
    match _slot_key_to_usb_device slot.slot_key with
    | some _ =>
      let eff : RecEffects := {unbind_attempted := true, unbind_result := some unbindOk}
      if s2.gpio_boot ≠ none then (s2, {eff with spawned_gpio := true})
      else (s2, {eff with spawned_nogpio := true})
    | none =>
      ({s2 with recovering := false, state := SlotState.flapping}, {})

/-- The `last_error` string written by the flap trigger (portal.py 1206). -/
def flapMsg : String := "USB flapping detected — starting recovery"

/-- The assignments of the trigger block before recovery is invoked
(portal.py lines 1204-1206). -/
def flap_mark (slot : Slot) : Slot :=
  {slot with flapping := true, state := SlotState.flapping, last_error := some flapMsg}

/-- The trigger block (portal.py lines 1203-1208): fire when not already
flapping and the pruned window reached `FLAP_THRESHOLD`. -/
def flap_trigger (unbindOk : Bool) (slot : Slot) : Slot × RecEffects :=
  if ¬slot.flapping ∧ FLAP_THRESHOLD ≤ slot.event_times.length then
    let r := start_flap_recovery unbindOk (flap_mark slot)
    (r.1, {r.2 with invoked := true})
  else (slot, {})

/-- Effects of `_recover_without_gpio` outside the slot record. -/
structure NoGpioEffects where
  slept : Bool := false
  rebind_attempted : Bool := false
deriving DecidableEq, Repr

/-- The permanent-failure message (portal.py lines 839-842), with
`FLAP_MAX_RETRIES` interpolated. -/
def manualMsg : String :=
  "Recovery failed after " ++ toString FLAP_MAX_RETRIES ++
    " attempts — needs manual intervention (re-flash with USB cable or add GPIO wiring)"

/-- `_recover_without_gpio` (portal.py lines 827-859): at the retry cap,
record permanent failure and stop; otherwise sleep the cooldown, bump the
retry counter, reset flap bookkeeping to IDLE, and rebind. -/
def _recover_without_gpio (slot : Slot) : Slot × NoGpioEffects :=
  let retry := slot.recover_retries
  if FLAP_MAX_RETRIES ≤ retry then
    ({slot with recovering := false, state := SlotState.flapping,
                last_error := some manualMsg}, {})
  else
    ({slot with recover_retries := retry + 1, recovering := false, flapping := false,
                event_times := [], last_error := none, state := SlotState.idle},
     {slept := true, rebind_attempted := true})

/-- GPIO actions performed by `_release_slot_gpio`. -/
structure ReleaseEffects where
  boot_released : Bool := false
  en_pulsed : Bool := false
deriving DecidableEq, Repr

structure ReleaseResult where
  slot : Slot
  ok : Bool
  error : Option String
  eff : ReleaseEffects
deriving DecidableEq, Repr

/-- `_release_slot_gpio` (portal.py lines 862-897).  `bootOk`/`enOk`
model whether the two `_gpio_set` calls raise; the EN-pulse failure is
non-fatal.  The exception text in the boot-failure message is elided. -/
def _release_slot_gpio (bootOk enOk : Bool) (slot : Slot) : ReleaseResult :=
  let label := slotLabel slot
  match slot.gpio_boot with
  | none => ⟨slot, false, some (label ++ ": no gpio_boot configured"), {}⟩
  | some _ =>
    if slot.state ≠ SlotState.download_mode then
      ⟨slot, false,
       some (label ++ ": not in download_mode (state=" ++ slot.state.str ++ ")"), {}⟩
    else if ¬bootOk then
      ⟨slot, false, some "GPIO release failed", {}⟩
    else
      let eff1 : ReleaseEffects := {boot_released := true}
      let eff := if slot.gpio_en ≠ none ∧ enOk then {eff1 with en_pulsed := true} else eff1
      ⟨{slot with state := SlotState.idle, recover_retries := 0}, true, none, eff⟩

/-- The stale-flapping clearance performed inside `_slot_info`
(portal.py lines 555-570), run for each slot on every `/api/devices`
read: prune the window and clear once it holds fewer than
`FLAP_THRESHOLD` events.  No gap test is performed here. -/
def slot_info_refresh (now : Int) (slot : Slot) : Slot :=
  if slot.flapping ∧ ¬slot.recovering then
    let recent := pruneEvents now slot.event_times
    let s1 : Slot := {slot with event_times := recent}
    if recent.length < FLAP_THRESHOLD then clearedSlot s1 else s1
  else slot

/-- The JSON body answered by `POST /api/hotplug`. -/
structure HotplugResponse where
  ok : Bool
  slot_key : String
  seq : Nat
  accepted : Bool
  flapping : Bool
  recovering : Bool
deriving DecidableEq, Repr

structure HotplugEffects where
  recEff : RecEffects := {}
  bg_start_spawned : Bool := false
  bg_stop_spawned : Bool := false
deriving DecidableEq, Repr

structure HotplugResult where
  slot : Slot
  seqc : Nat
  eff : HotplugEffects
  resp : HotplugResponse
deriving DecidableEq, Repr

/-- `_handle_hotplug` (portal.py lines 1129-1270), slot-level logic after
body validation and slot lookup: bookkeeping, the recovery early exit,
append + prune of the event window, quiet-period clearance, flap trigger,
and the add/remove dispatch (background start/stop threads are recorded
as effects, not executed). -/
def handle_hotplug (unbindOk : Bool) (seqc : Nat) (now : Int) (nowIso : String)
    (action : String) (devnode : Option String) (slot : Slot) : HotplugResult :=
  let seqc' := seqc + 1
  let s0 : Slot := {slot with seq := seqc', last_action := some action,
                              last_event_ts := some nowIso}
  let configured := s0.tcp_port ≠ none
  if s0.recovering then
    ⟨s0, seqc', {}, ⟨true, s0.slot_key, seqc', false, true, true⟩⟩
  else
    let s1 : Slot := {s0 with event_times := pruneEvents now (s0.event_times ++ [now])}
    let s2 := flap_clear s1
    let tr := flap_trigger unbindOk s2
    let s3 := tr.1
    let eff0 : HotplugEffects := {recEff := tr.2}
    let r :=
      if action = "add" then
        let sa : Slot := {s3 with present := true, devnode := devnode}
        let sa := if ¬sa.flapping then {sa with state := SlotState.idle} else sa
        if sa.flapping then (sa, eff0)
        else if configured then (sa, {eff0 with bg_start_spawned := true})
        else (sa, eff0)
      else if action = "remove" then
        let sr : Slot := {s3 with present := false}
        let sr := if ¬sr.flapping then {sr with state := SlotState.absent} else sr
        if configured ∧ sr.running then (sr, {eff0 with bg_stop_spawned := true})
        else (sr, eff0)
      else (s3, eff0)
    ⟨r.1, seqc', r.2, ⟨true, r.1.slot_key, seqc', configured, r.1.flapping, r.1.recovering⟩⟩

/-- The human-interaction rendezvous globals (`_human_event`,
`_human_confirmed`, `_human_message`, portal.py lines 65-67).  `pending`
models `_human_event is not None`; `fired` models `_human_event.is_set()`. -/
structure HumanState where
  pending : Bool
  fired : Bool
  confirmed : Bool
  message : Option String
deriving DecidableEq, Repr

structure HumanResp where
  status : Nat
  ok : Bool
  confirmed : Option Bool
  timeout : Option Bool
  error : Option String
deriving DecidableEq, Repr

/-- The registration section of `_handle_human_interaction` under
`_human_lock` (portal.py lines 1599-1605): a pending request makes the
new call answer 409 immediately; otherwise the request is registered and
the handler goes on to block.  `none` as second component means "no
immediate response". -/
def human_register (st : HumanState) (msg : String) : HumanState × Option HumanResp :=
  if st.pending then
    (st, some ⟨409, false, none, none, some "another request pending"⟩)
  else
    (⟨true, false, false, some msg⟩, none)

/-- The post-wait section of `_handle_human_interaction` (portal.py lines
1610-1624).  `responded` is the value of `_human_event.wait(timeout)`:
`false` when the timeout elapsed without Done/Cancel. -/
def human_finish (responded : Bool) (st : HumanState) : HumanState × HumanResp :=
  let confirmed := st.confirmed
  let st' : HumanState := {st with pending := false, message := none}
  if responded then
    (st', ⟨200, true, some confirmed, none, none⟩)
  else
    (st', ⟨200, true, some false, some true, none⟩)

/-- `_handle_human_done` (portal.py lines 1634-1643). -/
def human_done (st : HumanState) : HumanState × HumanResp :=
  if ¬st.pending ∨ st.fired then
    (st, ⟨200, false, none, none, some "no pending request"⟩)
  else
    ({st with confirmed := true, fired := true}, ⟨200, true, none, none, none⟩)

/-- `_handle_human_cancel` (portal.py lines 1645-1654). -/
def human_cancel (st : HumanState) : HumanState × HumanResp :=
  if ¬st.pending ∨ st.fired then
    (st, ⟨200, false, none, none, some "no pending request"⟩)
  else
    ({st with confirmed := false, fired := true}, ⟨200, true, none, none, none⟩)

/-- Substring test over character lists (used to state that an error
message mentions a phrase). -/
def containsSub (pat : List Char) : List Char → Bool
  | [] => pat.isPrefixOf []
  | c :: rest => pat.isPrefixOf (c :: rest) || containsSub pat rest

/-- A concrete configured slot (the `S1` of the spec's seed scenarios)
used to instantiate theorems with hypotheses. -/
def sampleSlot : Slot :=
  { label := some "S1"
    slot_key := "platform-3f980000.usb-usb-0:1.1.2:1.0"
    tcp_port := some 4001
    gpio_boot := some 5
    gpio_en := some 6
    present := true
    running := false
    pid := none
    devnode := some "/dev/ttyACM0"
    seq := 0
    last_action := none
    last_event_ts := none
    url := none
    last_error := none
    flapping := false
    state := SlotState.idle
    event_times := []
    recovering := false
    recover_retries := 0 }

/-- `sampleSlot` after the flap trigger marked it (flapping, not yet
recovering). -/
def flappingSlot : Slot :=
  { sampleSlot with flapping := true, state := SlotState.flapping,
                    last_error := some flapMsg }

/-- A flapping slot whose window still holds three closely spaced recent
events at time 100. -/
def staleFlapSlot : Slot :=
  { flappingSlot with event_times := [95, 96, 100] }

end Portal

namespace Portal

/-- C7: `stop_proxy` is idempotent — every call returns `True` and leaves
`running = false`, `pid = null`, `url = null`; a second consecutive call
changes nothing and still reports success. -/
theorem c7_stop_proxy_idempotent (s : Slot) :
    (stop_proxy s).2 = true ∧
    (stop_proxy s).1.running = false ∧
    (stop_proxy s).1.pid = none ∧
    (stop_proxy s).1.url = none ∧
    stop_proxy ((stop_proxy s).1) = ((stop_proxy s).1, true) := by
  refine ⟨rfl, rfl, rfl, rfl, ?_⟩
  simp [stop_proxy]

/-- C10: `stop_proxy` also clears `last_error` (in addition to `running`,
`pid`, `url`), erasing any previously recorded diagnostic. -/
theorem c10_stop_proxy_clears_last_error (s : Slot) :
    (stop_proxy s).1.last_error = none ∧
    (stop_proxy s).1.running = false ∧
    (stop_proxy s).1.pid = none ∧
    (stop_proxy s).1.url = none :=
  ⟨rfl, rfl, rfl, rfl⟩

/-- C5: no-GPIO recovery on a slot whose retry counter is at the cap
records a `last_error` mentioning "needs manual intervention", parks the
slot in FLAPPING with `_recovering = false`, and performs neither the
cooldown sleep nor the USB rebind. -/
theorem c5_no_gpio_retry_cap (s : Slot) (h : FLAP_MAX_RETRIES ≤ s.recover_retries) :
    (_recover_without_gpio s).1.last_error = some manualMsg ∧
    containsSub "needs manual intervention".toList manualMsg.toList = true ∧
    (_recover_without_gpio s).1.state = SlotState.flapping ∧
    (_recover_without_gpio s).1.recovering = false ∧
    (_recover_without_gpio s).2.slept = false ∧
    (_recover_without_gpio s).2.rebind_attempted = false := by
  unfold _recover_without_gpio
  refine ⟨?_, by decide, ?_, ?_, ?_, ?_⟩ <;> simp [h]

/-- Witness for C5 at a concrete slot with the retry counter at 2. -/
theorem c5_no_gpio_retry_cap_witness :
    (_recover_without_gpio {sampleSlot with recover_retries := 2}).1.last_error
        = some manualMsg ∧
    containsSub "needs manual intervention".toList manualMsg.toList = true ∧
    (_recover_without_gpio {sampleSlot with recover_retries := 2}).1.state
        = SlotState.flapping ∧
    (_recover_without_gpio {sampleSlot with recover_retries := 2}).1.recovering = false ∧
    (_recover_without_gpio {sampleSlot with recover_retries := 2}).2.slept = false ∧
    (_recover_without_gpio {sampleSlot with recover_retries := 2}).2.rebind_attempted
        = false :=
  c5_no_gpio_retry_cap {sampleSlot with recover_retries := 2} (by decide)

end Portal

namespace Portal

/-- C4: while `_recovering` is true, a hotplug event of any action leaves
`present`, `devnode`, `running`, `state` (and the event window)
unchanged, spawns nothing, and the ingest response carries
`accepted = false` and `recovering = true`. -/
theorem c4_recovering_drops_events (u : Bool) (seqc : Nat) (now : Int)
    (iso action : String) (dn : Option String) (s : Slot)
    (h : s.recovering = true) :
    (handle_hotplug u seqc now iso action dn s).slot.present = s.present ∧
    (handle_hotplug u seqc now iso action dn s).slot.devnode = s.devnode ∧
    (handle_hotplug u seqc now iso action dn s).slot.running = s.running ∧
    (handle_hotplug u seqc now iso action dn s).slot.state = s.state ∧
    (handle_hotplug u seqc now iso action dn s).slot.event_times = s.event_times ∧
    (handle_hotplug u seqc now iso action dn s).eff = {} ∧
    (handle_hotplug u seqc now iso action dn s).resp.accepted = false ∧
    (handle_hotplug u seqc now iso action dn s).resp.recovering = true := by
  unfold handle_hotplug
  simp [h]

/-- Witness for C4: a removal event against a recovering sample slot. -/
theorem c4_recovering_drops_events_witness :
    (handle_hotplug true 7 100 "t" "remove" none
        {sampleSlot with recovering := true}).slot.present
      = ({sampleSlot with recovering := true} : Slot).present ∧
    (handle_hotplug true 7 100 "t" "remove" none
        {sampleSlot with recovering := true}).slot.devnode
      = ({sampleSlot with recovering := true} : Slot).devnode ∧
    (handle_hotplug true 7 100 "t" "remove" none
        {sampleSlot with recovering := true}).slot.running
      = ({sampleSlot with recovering := true} : Slot).running ∧
    (handle_hotplug true 7 100 "t" "remove" none
        {sampleSlot with recovering := true}).slot.state
      = ({sampleSlot with recovering := true} : Slot).state ∧
    (handle_hotplug true 7 100 "t" "remove" none
        {sampleSlot with recovering := true}).slot.event_times
      = ({sampleSlot with recovering := true} : Slot).event_times ∧
    (handle_hotplug true 7 100 "t" "remove" none
        {sampleSlot with recovering := true}).eff = {} ∧
    (handle_hotplug true 7 100 "t" "remove" none
        {sampleSlot with recovering := true}).resp.accepted = false ∧
    (handle_hotplug true 7 100 "t" "remove" none
        {sampleSlot with recovering := true}).resp.recovering = true :=
  c4_recovering_drops_events true 7 100 "t" "remove" none
    {sampleSlot with recovering := true} (by decide)

/-- C9: a new human-interaction request while one is pending answers 409
and leaves the rendezvous state untouched; a registered request whose
wait times out with no operator action answers
`{ok: true, confirmed: false, timeout: true}`. -/
theorem c9_human_rendezvous (st st0 : HumanState) (msg msg2 : String)
    (hp : st.pending = true) (h0 : st0.pending = false) :
    human_register st msg2
      = (st, some ⟨409, false, none, none, some "another request pending"⟩) ∧
    human_finish false (human_register st0 msg).1
      = (⟨false, false, false, none⟩, ⟨200, true, some false, some true, none⟩) := by
  constructor
  · simp [human_register, hp]
  · simp [human_register, human_finish, h0]

/-- Witness for C9: a pending "Plug cable" request blocks a second
request, and times out to the documented body. -/
theorem c9_human_rendezvous_witness :
    human_register ⟨true, false, false, some "Plug cable"⟩ "Second"
      = (⟨true, false, false, some "Plug cable"⟩,
         some ⟨409, false, none, none, some "another request pending"⟩) ∧
    human_finish false (human_register ⟨false, false, false, none⟩ "Plug cable").1
      = (⟨false, false, false, none⟩, ⟨200, true, some false, some true, none⟩) :=
  c9_human_rendezvous ⟨true, false, false, some "Plug cable"⟩
    ⟨false, false, false, none⟩ "Plug cable" "Second" rfl rfl

end Portal

namespace Portal

/-- C8: on a slot with `gpio_boot` configured and state DOWNLOAD_MODE, a
release (whose GPIO write succeeds) returns ok and moves the state to
IDLE; an immediately following release fails with an error because the
slot is no longer in DOWNLOAD_MODE, and that failing call changes
neither the slot nor any GPIO line. -/
theorem c8_release_after_release (s : Slot) (gb : Nat) (enOk bootOk2 enOk2 : Bool)
    (hb : s.gpio_boot = some gb) (hs : s.state = SlotState.download_mode) :
    (_release_slot_gpio true enOk s).ok = true ∧
    (_release_slot_gpio true enOk s).slot.state = SlotState.idle ∧
    (_release_slot_gpio bootOk2 enOk2 (_release_slot_gpio true enOk s).slot).ok
      = false ∧
    (_release_slot_gpio bootOk2 enOk2 (_release_slot_gpio true enOk s).slot).error
      ≠ none ∧
    (_release_slot_gpio bootOk2 enOk2 (_release_slot_gpio true enOk s).slot).slot
      = (_release_slot_gpio true enOk s).slot ∧
    (_release_slot_gpio bootOk2 enOk2 (_release_slot_gpio true enOk s).slot).eff
      = {} := by
  unfold _release_slot_gpio
  simp [hb, hs]

/-- Witness for C8 at the sample slot parked in DOWNLOAD_MODE. -/
theorem c8_release_after_release_witness :
    (_release_slot_gpio true true
        {sampleSlot with state := SlotState.download_mode}).ok = true ∧
    (_release_slot_gpio true true
        {sampleSlot with state := SlotState.download_mode}).slot.state
      = SlotState.idle ∧
    (_release_slot_gpio true true (_release_slot_gpio true true
        {sampleSlot with state := SlotState.download_mode}).slot).ok = false ∧
    (_release_slot_gpio true true (_release_slot_gpio true true
        {sampleSlot with state := SlotState.download_mode}).slot).error ≠ none ∧
    (_release_slot_gpio true true (_release_slot_gpio true true
        {sampleSlot with state := SlotState.download_mode}).slot).slot
      = (_release_slot_gpio true true
          {sampleSlot with state := SlotState.download_mode}).slot ∧
    (_release_slot_gpio true true (_release_slot_gpio true true
        {sampleSlot with state := SlotState.download_mode}).slot).eff = {} :=
  c8_release_after_release {sampleSlot with state := SlotState.download_mode}
    5 true true true (by decide) rfl

end Portal

namespace Portal

/-- C1 counterexample: on a concrete flapping slot whose key parses, a
failing unbind write (`_usb_unbind` returns `False`) does NOT abort
recovery — `_recovering` stays true, the state is RECOVERING, and the
GPIO recovery worker is spawned anyway, because the Python caller
discards the helper's result. -/
theorem c1_unbind_failure_ignored :
    (start_flap_recovery false flappingSlot).2.unbind_attempted = true ∧
    (start_flap_recovery false flappingSlot).2.unbind_result = some false ∧
    (start_flap_recovery false flappingSlot).1.recovering = true ∧
    (start_flap_recovery false flappingSlot).1.state = SlotState.recovering ∧
    (start_flap_recovery false flappingSlot).2.spawned_gpio = true := by
  decide

/-- C1 (amended): `_start_flap_recovery` aborts — `_recovering = false`,
state back to FLAPPING, no unbind attempted, no recovery worker spawned —
exactly when `slot_key` yields no USB device name; when the name parses,
recovery proceeds (worker spawned) regardless of the unbind write's
reported success or failure. -/
theorem c1_recovery_abort_amended (u : Bool) (s : Slot) (h : s.recovering = false) :
    (_slot_key_to_usb_device s.slot_key = none →
       (start_flap_recovery u s).1.recovering = false ∧
       (start_flap_recovery u s).1.state = SlotState.flapping ∧
       (start_flap_recovery u s).2.unbind_attempted = false ∧
       (start_flap_recovery u s).2.spawned_gpio = false ∧
       (start_flap_recovery u s).2.spawned_nogpio = false) ∧
    (∀ d, _slot_key_to_usb_device s.slot_key = some d →
       (start_flap_recovery u s).1.recovering = true ∧
       (start_flap_recovery u s).1.state = SlotState.recovering ∧
       (start_flap_recovery u s).2.unbind_attempted = true ∧
       (start_flap_recovery u s).2.unbind_result = some u ∧
       ((start_flap_recovery u s).2.spawned_gpio = true ∨
        (start_flap_recovery u s).2.spawned_nogpio = true)) := by
  constructor
  · intro hnone
    simp [start_flap_recovery, h, hnone]
  · intro d hd
    by_cases hrp : (s.running = true ∧ pidTruthy s.pid = true) <;>
      by_cases hg : s.gpio_boot = none <;>
        simp [start_flap_recovery, h, hd, hrp, hg, stop_proxy]

/-- Witness for C1 (amended): the sample flapping slot parses and the
worker is spawned even when the unbind write fails. -/
theorem c1_recovery_abort_amended_witness :
    (start_flap_recovery false flappingSlot).1.recovering = true ∧
    (start_flap_recovery false flappingSlot).1.state = SlotState.recovering ∧
    (start_flap_recovery false flappingSlot).2.unbind_attempted = true ∧
    (start_flap_recovery false flappingSlot).2.unbind_result = some false ∧
    ((start_flap_recovery false flappingSlot).2.spawned_gpio = true ∨
     (start_flap_recovery false flappingSlot).2.spawned_nogpio = true) :=
  (c1_recovery_abort_amended false flappingSlot (by decide)).2 "1-1.1.2" (by decide)

end Portal

namespace Portal

/-- C2 counterexample: a flapping, non-recovering slot whose pruned
window still holds 3 (≥ 2) events with a newest gap of only 4 s (< 10 s)
— the claimed clearance test says "keep flapping" — is nevertheless
cleared by the `/api/devices` periodic observation, because `_slot_info`
clears whenever the pruned window drops below `FLAP_THRESHOLD` (6) and
performs no gap test. -/
theorem c2_periodic_clearance_counterexample :
    staleFlapSlot.flapping = true ∧
    staleFlapSlot.recovering = false ∧
    (pruneEvents 100 staleFlapSlot.event_times).length = 3 ∧
    newestGap (pruneEvents 100 staleFlapSlot.event_times) = 4 ∧
    (slot_info_refresh 100 staleFlapSlot).flapping = false := by
  decide

/-- C2 (amended): for a flapping, non-recovering slot, the hotplug-path
test clears exactly when the (already pruned) window holds fewer than 2
events or the newest gap is at least the 10 s cooldown, with the claimed
state/`last_error` effects; the periodic `/api/devices` observation
instead clears exactly when the pruned window holds fewer than
`FLAP_THRESHOLD` (6) events, with the same effects and no gap test. -/
theorem c2_flap_clearance_amended (now : Int) (s : Slot)
    (hf : s.flapping = true) (hr : s.recovering = false) :
    ((flap_clear s).flapping = false ↔
       (s.event_times.length < 2 ∨ FLAP_COOLDOWN_S ≤ newestGap s.event_times)) ∧
    ((s.event_times.length < 2 ∨ FLAP_COOLDOWN_S ≤ newestGap s.event_times) →
       flap_clear s = clearedSlot s) ∧
    (¬(s.event_times.length < 2 ∨ FLAP_COOLDOWN_S ≤ newestGap s.event_times) →
       flap_clear s = s) ∧
    ((slot_info_refresh now s).flapping = false ↔
       (pruneEvents now s.event_times).length < FLAP_THRESHOLD) ∧
    ((pruneEvents now s.event_times).length < FLAP_THRESHOLD →
       (slot_info_refresh now s).state
         = (if s.present then SlotState.idle else SlotState.absent) ∧
       (slot_info_refresh now s).last_error = none) := by
  refine ⟨?_, ?_, ?_, ?_, ?_⟩
  · by_cases h2 : s.event_times.length < 2 <;>
      by_cases h10 : FLAP_COOLDOWN_S ≤ newestGap s.event_times <;>
        simp [flap_clear, clearedSlot, hf, hr, h2, h10]
  · intro hc
    rcases hc with h2 | h10
    · simp [flap_clear, hf, hr, h2]
    · by_cases h2 : s.event_times.length < 2 <;>
        simp [flap_clear, hf, hr, h2, h10]
  · intro hc
    push_neg at hc
    have h2 : ¬ s.event_times.length < 2 := by omega
    have h10 : ¬ FLAP_COOLDOWN_S ≤ newestGap s.event_times := not_le.mpr hc.2
    simp [flap_clear, hf, hr, h2, h10]
  · by_cases h6 : (pruneEvents now s.event_times).length < FLAP_THRESHOLD <;>
      simp [slot_info_refresh, clearedSlot, hf, hr, h6]
  · intro h6
    simp [slot_info_refresh, clearedSlot, hf, hr, h6]

/-- Witness for C2 (amended) at the concrete stale flapping slot. -/
theorem c2_flap_clearance_amended_witness :
    ((flap_clear staleFlapSlot).flapping = false ↔
       (staleFlapSlot.event_times.length < 2 ∨
        FLAP_COOLDOWN_S ≤ newestGap staleFlapSlot.event_times)) ∧
    ((staleFlapSlot.event_times.length < 2 ∨
      FLAP_COOLDOWN_S ≤ newestGap staleFlapSlot.event_times) →
       flap_clear staleFlapSlot = clearedSlot staleFlapSlot) ∧
    (¬(staleFlapSlot.event_times.length < 2 ∨
       FLAP_COOLDOWN_S ≤ newestGap staleFlapSlot.event_times) →
       flap_clear staleFlapSlot = staleFlapSlot) ∧
    (((slot_info_refresh 100 staleFlapSlot).flapping = false) ↔
       (pruneEvents 100 staleFlapSlot.event_times).length < FLAP_THRESHOLD) ∧
    ((pruneEvents 100 staleFlapSlot.event_times).length < FLAP_THRESHOLD →
       (slot_info_refresh 100 staleFlapSlot).state
         = (if staleFlapSlot.present then SlotState.idle else SlotState.absent) ∧
       (slot_info_refresh 100 staleFlapSlot).last_error = none) :=
  c2_flap_clearance_amended 100 staleFlapSlot (by decide) (by decide)

end Portal

namespace Portal

/-- C3: with `flapping = false` and recovery idle, a hotplug event that
brings the pruned 30 s window to exactly 6 timestamps fires the trigger:
the slot is marked flapping (state FLAPPING, `last_error` recorded — the
message is still observable afterwards whenever no proxy was running,
since stopping a proxy clears it) and the recovery engine is invoked,
which moves the state on to RECOVERING (or back to FLAPPING on an
unparseable key); an event leaving the window at 5 or fewer timestamps
fires nothing and leaves `flapping` false. -/
theorem c3_flap_trigger_threshold (u : Bool) (seqc : Nat) (now : Int)
    (iso action : String) (dn : Option String) (s : Slot)
    (hf : s.flapping = false) (hr : s.recovering = false) :
    ((pruneEvents now (s.event_times ++ [now])).length = 6 →
       (handle_hotplug u seqc now iso action dn s).eff.recEff.invoked = true ∧
       (handle_hotplug u seqc now iso action dn s).slot.flapping = true ∧
       ((handle_hotplug u seqc now iso action dn s).slot.state
           = SlotState.recovering ∨
        (handle_hotplug u seqc now iso action dn s).slot.state
           = SlotState.flapping) ∧
       (s.running = false →
          (handle_hotplug u seqc now iso action dn s).slot.last_error
            = some flapMsg)) ∧
    ((pruneEvents now (s.event_times ++ [now])).length ≤ 5 →
       (handle_hotplug u seqc now iso action dn s).eff.recEff.invoked = false ∧
       (handle_hotplug u seqc now iso action dn s).slot.flapping = false) := by
  constructor
  · intro h6
    cases hp : _slot_key_to_usb_device s.slot_key with
    | none =>
      by_cases ha : action = "add" <;> by_cases hm : action = "remove" <;>
        by_cases hrp : (s.running = true ∧ pidTruthy s.pid = true) <;>
          simp [handle_hotplug, flap_clear, flap_trigger, start_flap_recovery,
                flap_mark, stop_proxy, FLAP_THRESHOLD, hf, hr, h6, hp, ha, hm,
                hrp, apply_ite]
    | some d =>
      by_cases ha : action = "add" <;> by_cases hm : action = "remove" <;>
        by_cases hrp : (s.running = true ∧ pidTruthy s.pid = true) <;>
          simp [handle_hotplug, flap_clear, flap_trigger, start_flap_recovery,
                flap_mark, stop_proxy, FLAP_THRESHOLD, hf, hr, h6, hp, ha, hm,
                hrp, apply_ite]
  · intro h5
    have hlt : ¬ FLAP_THRESHOLD ≤ (pruneEvents now (s.event_times ++ [now])).length := by
      simp only [FLAP_THRESHOLD]
      omega
    by_cases ha : action = "add" <;> by_cases hm : action = "remove" <;>
      simp [handle_hotplug, flap_clear, flap_trigger, hf, hr, hlt, ha, hm,
            apply_ite]

end Portal

namespace Portal

/-- Witness for C3: five events in the window plus a sixth hotplug at
time 100 fires the trigger and invokes recovery on the sample slot. -/
theorem c3_flap_trigger_threshold_witness :
    (handle_hotplug true 0 100 "t" "add" (some "/dev/ttyACM0")
        {sampleSlot with event_times := [80, 82, 84, 86, 88]}).eff.recEff.invoked
      = true ∧
    (handle_hotplug true 0 100 "t" "add" (some "/dev/ttyACM0")
        {sampleSlot with event_times := [80, 82, 84, 86, 88]}).slot.flapping
      = true ∧
    ((handle_hotplug true 0 100 "t" "add" (some "/dev/ttyACM0")
        {sampleSlot with event_times := [80, 82, 84, 86, 88]}).slot.state
      = SlotState.recovering ∨
     (handle_hotplug true 0 100 "t" "add" (some "/dev/ttyACM0")
        {sampleSlot with event_times := [80, 82, 84, 86, 88]}).slot.state
      = SlotState.flapping) ∧
    (handle_hotplug true 0 100 "t" "add" (some "/dev/ttyACM0")
        {sampleSlot with event_times := [80, 82, 84, 86, 88]}).slot.last_error
      = some flapMsg :=
  have h := (c3_flap_trigger_threshold true 0 100 "t" "add" (some "/dev/ttyACM0")
    {sampleSlot with event_times := [80, 82, 84, 86, 88]} rfl rfl).1 (by decide)
  ⟨h.1, h.2.1, h.2.2.1, h.2.2.2 rfl⟩

end Portal

namespace Portal

/-- Soundness of `lastIndexOf`: a returned index is an occurrence. -/
theorem lastIndexOf_sound (pat cs : List Char) (i : Nat)
    (h : lastIndexOf pat cs = some i) : pat <+: cs.drop i := by
  induction cs generalizing i with
  | nil =>
    by_cases hp : pat = []
    · simp only [lastIndexOf, if_pos hp, Option.some.injEq] at h
      simp [hp, ← h]
    · simp [lastIndexOf, hp] at h
  | cons c rest ih =>
    rw [lastIndexOf] at h
    cases hrec : lastIndexOf pat rest with
    | some j =>
      rw [hrec] at h
      simp only [Option.some.injEq] at h
      rw [← h]
      simpa using ih j hrec
    | none =>
      rw [hrec] at h
      by_cases hpre : pat.isPrefixOf (c :: rest)
      · rw [if_pos hpre] at h
        simp only [Option.some.injEq] at h
        rw [← h]
        simpa using List.isPrefixOf_iff_prefix.mp hpre
      · rw [if_neg hpre] at h
        exact absurd h (by simp)

/-- Completeness of `lastIndexOf`: every occurrence is at or before the
returned index. -/
theorem lastIndexOf_complete (pat : List Char) (hp : pat ≠ []) :
    ∀ (cs : List Char) (j : Nat), pat <+: cs.drop j →
      ∃ i, lastIndexOf pat cs = some i ∧ j ≤ i := by
  intro cs
  induction cs with
  | nil =>
    intro j h
    rw [List.drop_nil, List.prefix_nil] at h
    exact absurd h hp
  | cons c rest ih =>
    intro j h
    cases j with
    | zero =>
      cases hrec : lastIndexOf pat rest with
      | some i => exact ⟨i + 1, by simp [lastIndexOf, hrec], Nat.zero_le _⟩
      | none =>
        refine ⟨0, ?_, Nat.le_refl 0⟩
        rw [List.drop_zero] at h
        simp [lastIndexOf, hrec, List.isPrefixOf_iff_prefix.mpr h]
    | succ k =>
      rw [List.drop_succ_cons] at h
      obtain ⟨i, hi, hki⟩ := ih k h
      exact ⟨i + 1, by simp [lastIndexOf, hi], by omega⟩

/-- `lastIndexOf` answers `none` when the pattern occurs nowhere. -/
theorem lastIndexOf_eq_none (pat cs : List Char)
    (h : ∀ j, ¬ pat <+: cs.drop j) : lastIndexOf pat cs = none := by
  cases hrec : lastIndexOf pat cs with
  | none => rfl
  | some i => exact absurd (lastIndexOf_sound pat cs i hrec) (h i)

/-- On a string decomposed around its LAST `"usb-"` (no further
occurrence inside `post`), `lastIndexOf` returns exactly `pre.length`.
Note `"usb-"` cannot overlap itself, so any later occurrence would have
to live entirely inside `post`. -/
theorem lastIndexOf_decomp (pre post : List Char)
    (hno : ¬ patUsb <:+: post) :
    lastIndexOf patUsb (pre ++ patUsb ++ post) = some pre.length := by
  have hplen : (pre ++ patUsb).length = pre.length + 4 := by simp [patUsb]
  have hdrop_pre : (pre ++ patUsb ++ post).drop pre.length = patUsb ++ post := by
    rw [List.append_assoc, List.drop_left]
  have hocc : patUsb <+: (pre ++ patUsb ++ post).drop pre.length := by
    rw [hdrop_pre]
    exact List.prefix_append _ _
  obtain ⟨i, hi, hle⟩ := lastIndexOf_complete patUsb (by decide) _ pre.length hocc
  have hprefix := lastIndexOf_sound patUsb _ i hi
  by_cases heq : i = pre.length
  · rw [heq] at hi
    exact hi
  exfalso
  have hgt : pre.length < i := Nat.lt_of_le_of_ne hle (Ne.symm heq)
  by_cases hbig : pre.length + 4 ≤ i
  · have hieq : i = (pre ++ patUsb).length + (i - (pre.length + 4)) := by
      rw [hplen]; omega
    rw [hieq, List.drop_append] at hprefix
    obtain ⟨r, hr⟩ := hprefix
    exact hno ⟨post.take (i - (pre.length + 4)), r, by
      rw [List.append_assoc, hr, List.take_append_drop]⟩
  · have h14 : i = pre.length + 1 ∨ i = pre.length + 2 ∨ i = pre.length + 3 := by
      omega
    rcases h14 with h1 | h1 | h1 <;>
      · rw [h1, ← List.drop_drop, hdrop_pre] at hprefix
        simp [patUsb] at hprefix

end Portal

namespace Portal

/-- C6: for every `slot_key`, the USB device-name derivation answers
`none` when `"usb-"` does not occur in the key; and when the key splits
as `pre ++ "usb-" ++ post` around the LAST occurrence, the suffix `post`
is split on `":"`: fewer than two fields gives `none`, a first field
that Python `int` rejects gives `none`, and otherwise the result is
`"<bus+1>-<port_path>"` built from the parsed bus and the second field. -/
theorem c6_slot_key_to_usb_device (key : String) :
    (¬ patUsb <:+: key.toList → _slot_key_to_usb_device key = none) ∧
    (∀ pre post : List Char,
       key.toList = pre ++ patUsb ++ post → ¬ patUsb <:+: post →
       (((splitChar ':' post).length < 2 → _slot_key_to_usb_device key = none) ∧
        (∀ b p ps, splitChar ':' post = b :: p :: ps →
           (PyStr.pyInt (String.mk b) = none → _slot_key_to_usb_device key = none) ∧
           (∀ n, PyStr.pyInt (String.mk b) = some n →
              _slot_key_to_usb_device key
                = some (toString (n + 1) ++ "-" ++ String.mk p))))) := by
  constructor
  · intro hno
    have hnone : lastIndexOf patUsb key.toList = none := by
      apply lastIndexOf_eq_none
      intro j hj
      obtain ⟨r, hr⟩ := hj
      exact hno ⟨key.toList.take j, r, by
        rw [List.append_assoc, hr, List.take_append_drop]⟩
    have hnone2 : lastIndexOf patUsb key.data = none := hnone
    simp [_slot_key_to_usb_device, hnone2]
  · intro pre post hdecomp hno
    have hidx : lastIndexOf patUsb key.data = some pre.length := by
      have : lastIndexOf patUsb key.toList = some pre.length := by
        rw [hdecomp]
        exact lastIndexOf_decomp pre post hno
      exact this
    have hplen : (pre ++ patUsb).length = pre.length + 4 := by simp [patUsb]
    have hdrop : (key.data).drop (pre.length + 4) = post := by
      have : key.toList.drop (pre.length + 4) = post := by
        rw [hdecomp]
        exact List.drop_left' hplen
      exact this
    refine ⟨?_, ?_⟩
    · intro h2
      simp [_slot_key_to_usb_device, hidx, hdrop, h2]
    · intro b p ps hsplit
      constructor
      · intro hni
        have hni2 : PyStr.pyInt ⟨b⟩ = none := hni
        simp [_slot_key_to_usb_device, hidx, hdrop, hsplit, hni2]
      · intro n hn
        have hn2 : PyStr.pyInt ⟨b⟩ = some n := hn
        simp [_slot_key_to_usb_device, hidx, hdrop, hsplit, hn2]

end Portal

namespace Portal

/-- Witness for C6: the canonical Raspberry-Pi key parses to `1-1.1.2`. -/
theorem c6_slot_key_to_usb_device_witness :
    _slot_key_to_usb_device "platform-3f980000.usb-usb-0:1.1.2:1.0"
      = some "1-1.1.2" := by
  have h := ((c6_slot_key_to_usb_device
      "platform-3f980000.usb-usb-0:1.1.2:1.0").2
    "platform-3f980000.usb-".toList "0:1.1.2:1.0".toList
    (by decide) (by decide)).2
    "0".toList "1.1.2".toList ["1.0".toList] (by decide)
  have h2 := h.2 0 (by decide)
  rw [h2]
  decide

end Portal
